import Mathlib

/-!
Verification of the benningsolarvalues data collector (`app.py`).

The development shallowly embeds the core pipeline of the program:
the record parser and unit-normalization logic of `do_repeat`
(lines 172–209), the publish / reconnect step (lines 214–218, 124–137),
the non-200 raise (lines 220–221), and the scheduler loop `every`
(lines 141–152).  Numeric values are modelled as exact rationals;
stateful code is modelled by explicit state passing.
-/

namespace BenningSolar

/-! ## String primitives modelling the Python operations used by the parser -/

/-- Digit-string to natural number, as in Python int-of-digits accumulation. -/
def digitsToNat (cs : List Char) : Nat :=
  cs.foldl (fun a c => a * 10 + (c.toNat - 48)) 0

/-- Models Python `float(s)` on the plain decimal literals the device emits:
an optional sign, integer digits, and an optional fractional part
(`"5"`, `"5.0"`, `"-0.5"`, `".5"`, `"5."`).  Exponent, `inf`/`nan` and
whitespace forms do not occur in the device data and are rejected.
The result is the exact rational value of the literal. -/
def parseDecimal? (s : String) : Option ℚ :=
  let go : List Char → Option ℚ := fun cs =>
    let intPart := cs.takeWhile Char.isDigit
    let rest := cs.dropWhile Char.isDigit
    match rest with
    | [] => if cs.isEmpty then none else some (digitsToNat intPart)
    | '.' :: frac =>
        if frac.all Char.isDigit && !(intPart.isEmpty && frac.isEmpty) then
          some ((digitsToNat intPart : ℚ) + (digitsToNat frac : ℚ) / 10 ^ frac.length)
        else none
    | _ => none
  match s.data with
  | '-' :: t => (go t).map Neg.neg
  | '+' :: t => go t
  | cs => go cs

/-- Models Python `str.splitlines()` on the line boundaries occurring in the
device response body: lines separated by LF, CR or CRLF, with no trailing
empty line for a terminating newline. -/
def splitlinesAux : List Char → List Char → List String
  | [], acc => if acc.isEmpty then [] else [String.mk acc.reverse]
  | '\r' :: '\n' :: rest, acc => String.mk acc.reverse :: splitlinesAux rest []
  | '\r' :: rest, acc => String.mk acc.reverse :: splitlinesAux rest []
  | '\n' :: rest, acc => String.mk acc.reverse :: splitlinesAux rest []
  | c :: rest, acc => splitlinesAux rest (c :: acc)

/-- The line split applied to the response text at app.py line 174. -/
def splitlines (s : String) : List String := splitlinesAux s.data []

/-- Models Python `str.split(sep)` for a one-character separator:
`"".split(";") == [""]`, separators at the ends produce empty fields. -/
def splitOnCharAux (sep : Char) : List Char → List Char → List String
  | [], acc => [String.mk acc.reverse]
  | c :: rest, acc =>
      if c = sep then String.mk acc.reverse :: splitOnCharAux sep rest []
      else splitOnCharAux sep rest (c :: acc)

/-- The semicolon field split applied to one line at app.py line 176. -/
def splitOnChar (sep : Char) (s : String) : List String :=
  splitOnCharAux sep s.data []

/-- Models Python `str.strip(c)`: removes every leading and trailing
occurrence of the character `c` (app.py line 208, `v[4].strip(chr 34)`). -/
def stripChar (c : Char) (s : String) : String :=
  String.mk (((s.data.dropWhile (fun a => a = c)).reverse.dropWhile
    (fun a => a = c)).reverse)

/-! ## The canonical metric produced for one raw record -/

/-- One entry of the `allmetrics` list built at app.py line 208. -/
structure Metric where
  id : String
  descriptor : String
  type : String
  value : ℚ
  description : String
  unit : String
  unit_zabbix : String
  deriving DecidableEq, Repr

/-! ## Multiplier handling (app.py lines 179–184) -/

/-- The value computation of app.py lines 181–184: multiply `rawvalue` by
`multiplier` unless the multiplier string is exactly `"1.000000"`, in which
case the raw value is converted alone.  `none` models the `ValueError`
raised by `float` on a malformed field. -/
def computeValue (rawvalue multiplier : String) : Option ℚ :=
  if multiplier ≠ "1.000000" then
    match parseDecimal? rawvalue, parseDecimal? multiplier with
    | some r, some m => some (r * m)
    | _, _ => none
  else parseDecimal? rawvalue

/-! ## Unit normalization (app.py lines 186–206)

The source mutates `value`, `unit`, `unit_zabbix` through a sequence of
independent `if` statements.  Each step below is one of those statements,
acting on the state tuple `(value, unit, unit_zabbix)`. -/

/-- app.py lines 189–192: `if unit == "mA"`. -/
def unitStep_mA (x : ℚ × String × String) : ℚ × String × String :=
  if x.2.1 = "mA" then (x.1 * 1000, "A", "A") else x

/-- app.py lines 194–195: `if unit == "kWh"` (checks the possibly already
rewritten unit). -/
def unitStep_kWh (x : ℚ × String × String) : ℚ × String × String :=
  if x.2.1 = "kWh" then (x.1, x.2.1, "!kWh") else x

/-- app.py lines 197–200: `if unit == "h"`. -/
def unitStep_h (x : ℚ × String × String) : ℚ × String × String :=
  if x.2.1 = "h" then (x.1 * 3600, "s", "s") else x

/-- First absolute-timestamp descriptor (app.py line 202). -/
def backupTimestampDescriptor : String :=
  "SystemState_persistent.Global.LastSystemBackupTimestamp"

/-- Second absolute-timestamp descriptor (app.py line 205). -/
def sendProtocolTimestampDescriptor : String :=
  "SystemState_persistent.SolarPortal.LastSendProtocolTimestamp"

/-- app.py lines 202–203: descriptor override of `unit_zabbix`. -/
def tsStep1 (descriptor : String) (x : ℚ × String × String) : ℚ × String × String :=
  if descriptor = backupTimestampDescriptor then (x.1, x.2.1, "unixtime") else x

/-- app.py lines 205–206: descriptor override of `unit_zabbix`. -/
def tsStep2 (descriptor : String) (x : ℚ × String × String) : ℚ × String × String :=
  if descriptor = sendProtocolTimestampDescriptor then (x.1, x.2.1, "unixtime") else x

/-- The unit-normalization block of app.py lines 186–206 as one function
`normalize (descriptor, unit, value) = (unit, unitTag, value)`:
`unit_zabbix` starts equal to `unit` (line 188), then the five `if`
statements run in source order. -/
def normalize (descriptor unit : String) (value : ℚ) : String × String × ℚ :=
  let x := tsStep2 descriptor (tsStep1 descriptor
    (unitStep_h (unitStep_kWh (unitStep_mA (value, unit, unit)))))
  (x.2.1, x.2.2, x.1)

/-! ## Per-line record processing (app.py lines 176–209) -/

/-- Processing of one line of the response body (loop body, app.py
lines 176–209).  `none` models an uncaught `IndexError` (too few fields)
or `ValueError` (malformed number) for that line. -/
def processLine (line : String) : Option Metric := do
  let v := splitOnChar ';' line
  let rawvalue ← v.get? 3
  let multiplier ← v.get? 5
  let value ← computeValue rawvalue multiplier
  let unit0 ← v.get? 6
  let descriptor ← v.get? 1
  let ident ← v.get? 0
  let ty ← v.get? 2
  let description ← v.get? 4
  let (unit, unit_zabbix, value) := normalize descriptor unit0 value
  pure { id := ident, descriptor := descriptor, type := ty, value := value,
         description := stripChar '"' description, unit := unit,
         unit_zabbix := unit_zabbix }

/-- Processes the split lines in order; any failing line aborts the whole
batch (the exception propagates out of the `for` loop). -/
def parseLines : List String → Option (List Metric)
  | [] => some []
  | l :: ls => do
      let m ← processLine l
      let ms ← parseLines ls
      pure (m :: ms)

/-- The full body parser of app.py lines 172–209: split the response text
into lines and process every one of them. -/
def parse (body : String) : Option (List Metric) :=
  parseLines (splitlines body)

/-! ## Worker state, MQTT connection and one cycle (app.py lines 119–221) -/

/-- The persistent state of `BenningSolarMetricsWorker`: the
`mqtt_connected` flag (the connection handle itself carries no
observable state in this model). -/
structure WorkerState where
  mqtt_connected : Bool
  deriving DecidableEq, Repr

/-- The connect sequence (app.py lines 124–137): attempt the connection;
`connectOutcome` is `true` when `mqtt_client.connect` returns and `false`
when it raises.  The flag is set accordingly; a failure is logged and
swallowed. -/
def mqtt_connect (connectOutcome : Bool) (s : WorkerState) : WorkerState :=
  { s with mqtt_connected := connectOutcome }

/-- Outcome of `requests.get` in one cycle (app.py line 159): either the
`ConnectionError` branch, or a response with a status code and text body. -/
inductive FetchResult where
  | connError : FetchResult
  | response (status : Nat) (body : String) : FetchResult
  deriving DecidableEq, Repr

/-- The externally visible effects of one `do_repeat` call. -/
structure CycleEffects where
  /-- the payload passed to `mqtt_client.publish`, when a publish happened -/
  published : Option (List Metric)
  /-- number of `mqtt_connect` calls made during the cycle -/
  connectAttempts : Nat
  /-- whether the mqtt-not-connected warning was logged -/
  warningLogged : Bool
  deriving DecidableEq, Repr

/-- One cycle task `do_repeat` (app.py lines 154–221).  The `Except` layer
models an exception escaping `do_repeat`: a malformed row raises
`IndexError`/`ValueError` out of the parse loop, and a non-200 status
raises `Error` at line 221.  A `ConnectionError` from the fetch is caught
and logged (lines 160–162).  With a 200 response and a clean parse, the
payload is published when `mqtt_connected` holds; otherwise the publish is
skipped, a warning is logged and one reconnect attempt is made
(lines 214–218). -/
def do_repeat (fetch : FetchResult) (connectOutcome : Bool) (s : WorkerState) :
    Except String (WorkerState × CycleEffects) :=
  match fetch with
  | FetchResult.connError =>
      Except.ok (s, { published := none, connectAttempts := 0, warningLogged := false })
  | FetchResult.response status body =>
      if status = 200 then
        match parse body with
        | none => Except.error "exception while processing a row"
        | some allmetrics =>
            if s.mqtt_connected then
              Except.ok (s, { published := some allmetrics, connectAttempts := 0,
                              warningLogged := false })
            else
              Except.ok (mqtt_connect connectOutcome s,
                { published := none, connectAttempts := 1, warningLogged := true })
      else
        Except.error ("error fetching data: " ++ body)

/-! ## Scheduler (app.py lines 141–152) -/

/-- The `next_time` update of app.py line 152:
`next_time += (time.time() - next_time) // delay * delay + delay`,
with Python floor division `//`. -/
def next_time_update (delay next_time now : ℚ) : ℚ :=
  next_time + (⌊(now - next_time) / delay⌋ : ℚ) * delay + delay

/-- One iteration of the scheduler loop body (app.py lines 144–152), run
against an already-determined task outcome.  The `Except` layer of the
result models an exception escaping the loop body; the
`except Exception` clause at lines 148–150 catches every task exception
and logs it, so both branches return `Except.ok`.  The `Bool` component
records whether `logging.exception` was called. -/
def every_iteration (delay next_time now : ℚ)
    (taskResult : Except String (WorkerState × CycleEffects))
    (s : WorkerState) : Except String (WorkerState × ℚ × Bool) :=
  match taskResult with
  | Except.ok (s2, _) => Except.ok (s2, next_time_update delay next_time now, false)
  | Except.error _ => Except.ok (s, next_time_update delay next_time now, true)

/-- The worker state after one full scheduler iteration: the task's new
state on success, the state at the raise point on an exception (both raise
sites of `do_repeat` precede any mutation of the mqtt state). -/
def runCycle (fetch : FetchResult) (connectOutcome : Bool) (s : WorkerState) :
    WorkerState :=
  match do_repeat fetch connectOutcome s with
  | Except.ok (s2, _) => s2
  | Except.error _ => s

/-- Worker state after a sequence of scheduler iterations, each with its
own fetch result and connect outcome. -/
def runCycles : List (FetchResult × Bool) → WorkerState → WorkerState
  | [], s => s
  | (f, c) :: rest, s => runCycles rest (runCycle f c s)

/-! ## Helper lemmas -/

lemma tsStep1_fst (d : String) (x : ℚ × String × String) : (tsStep1 d x).1 = x.1 := by
  unfold tsStep1; split <;> rfl

lemma tsStep1_unit (d : String) (x : ℚ × String × String) :
    (tsStep1 d x).2.1 = x.2.1 := by
  unfold tsStep1; split <;> rfl

lemma tsStep2_fst (d : String) (x : ℚ × String × String) : (tsStep2 d x).1 = x.1 := by
  unfold tsStep2; split <;> rfl

lemma tsStep2_unit (d : String) (x : ℚ × String × String) :
    (tsStep2 d x).2.1 = x.2.1 := by
  unfold tsStep2; split <;> rfl

/-- C1 (theorem).  The multiplier rule of app.py lines 181–184: when the
multiplier string differs from `"1.000000"` the computed value is the
product of the converted raw value and converted multiplier, and when it
is exactly `"1.000000"` the value is the converted raw value alone, with
no multiplication performed. -/
theorem computeValue_multiplier_rule (rawvalue multiplier : String) (r m : ℚ)
    (hr : parseDecimal? rawvalue = some r)
    (hm : parseDecimal? multiplier = some m) :
    (multiplier ≠ "1.000000" → computeValue rawvalue multiplier = some (r * m)) ∧
    (multiplier = "1.000000" → computeValue rawvalue multiplier = parseDecimal? rawvalue) := by
  constructor
  · intro h
    simp [computeValue, h, hr, hm]
  · intro h
    simp [computeValue, h]

/-- C1 (witness): the multiplier rule evaluated at rawValue "5.0" with
multipliers "2.000000" and "1.000000". -/
theorem computeValue_multiplier_rule_witness :
    computeValue "5.0" "2.000000" = some 10 ∧
    computeValue "5.0" "1.000000" = parseDecimal? "5.0" := by
  constructor
  · rw [(computeValue_multiplier_rule "5.0" "2.000000" 5 2
      (by simp [parseDecimal?, digitsToNat])
      (by simp [parseDecimal?, digitsToNat])).1 (by decide)]
    norm_num
  · exact (computeValue_multiplier_rule "5.0" "1.000000" 5 1
      (by simp [parseDecimal?, digitsToNat])
      (by simp [parseDecimal?, digitsToNat])).2 rfl

/-- C2 (counterexample).  A record whose unit field is exactly "mA" but
whose descriptor is the backup-timestamp descriptor ends with
unitTag "unixtime", not "A": the descriptor override of app.py
lines 202–203 rewrites the unitTag the mA rule had set. -/
theorem mA_timestamp_counterexample :
    processLine ("11400;SystemState_persistent.Global.LastSystemBackupTimestamp;F;5.0;\"t\";1.000000;mA;2;1;2;1;0.000000;0.000000;0;0;0")
      = some { id := "11400",
               descriptor := "SystemState_persistent.Global.LastSystemBackupTimestamp",
               type := "F", value := 5000, description := "t", unit := "A",
               unit_zabbix := "unixtime" } ∧
    "unixtime" ≠ "A" := by
  constructor
  · simp [processLine, splitOnChar, splitOnCharAux, computeValue, parseDecimal?,
      digitsToNat, normalize, unitStep_mA, unitStep_kWh, unitStep_h, tsStep1, tsStep2,
      backupTimestampDescriptor, sendProtocolTimestampDescriptor, stripChar] <;> norm_num
  · decide

/-- C2 (amended theorem).  For every record whose unit field is "mA" and
whose descriptor is not one of the two absolute-timestamp descriptors,
normalization multiplies the multiplier-scaled value by 1000 and sets both
unit and unitTag to "A"; in particular the scenario record with
rawValue "5.0", multiplier "1.000000", unit "mA" yields value 5000,
unit "A", unitTag "A". -/
theorem normalize_mA_amended :
    (∀ d v, d ≠ backupTimestampDescriptor → d ≠ sendProtocolTimestampDescriptor →
      normalize d "mA" v = ("A", "A", v * 1000)) ∧
    processLine "11401;SystemState.Global.Measurement.ACCurrent;F;5.0;\"AC Strom\";1.000000;mA;2;1;2;1;0.000000;0.000000;0;0;0"
      = some { id := "11401",
               descriptor := "SystemState.Global.Measurement.ACCurrent",
               type := "F", value := 5000, description := "AC Strom", unit := "A",
               unit_zabbix := "A" } := by
  constructor
  · intro d v h1 h2
    simp [normalize, unitStep_mA, unitStep_kWh, unitStep_h, tsStep1, tsStep2, h1, h2]
  · simp [processLine, splitOnChar, splitOnCharAux, computeValue, parseDecimal?,
      digitsToNat, normalize, unitStep_mA, unitStep_kWh, unitStep_h, tsStep1, tsStep2,
      backupTimestampDescriptor, sendProtocolTimestampDescriptor, stripChar] <;> norm_num

/-- C2 (witness): the amended mA rule evaluated at a non-timestamp
descriptor. -/
theorem normalize_mA_amended_witness :
    normalize "SystemState.Global.Measurement.ACCurrent" "mA" 5 = ("A", "A", 5 * 1000) :=
  normalize_mA_amended.1 "SystemState.Global.Measurement.ACCurrent" 5
    (by decide) (by decide)

/-- C3 (theorem).  For a record whose descriptor is one of the two
absolute-timestamp descriptors, the final unitTag is "unixtime"; moreover
the unit and value components of normalization never depend on the
descriptor, so the override leaves the unit and value produced by the
mA/kWh/h rules unaffected. -/
theorem normalize_timestamp_override :
    (∀ d u v, d = backupTimestampDescriptor ∨ d = sendProtocolTimestampDescriptor →
      (normalize d u v).2.1 = "unixtime") ∧
    (∀ d d2 u v, (normalize d u v).1 = (normalize d2 u v).1 ∧
      (normalize d u v).2.2 = (normalize d2 u v).2.2) := by
  constructor
  · intro d u v h
    rcases h with h | h <;> subst h <;>
      simp [normalize, tsStep1, tsStep2, backupTimestampDescriptor,
        sendProtocolTimestampDescriptor]
  · intro d d2 u v
    constructor <;>
      simp [normalize, tsStep1_unit, tsStep2_unit, tsStep1_fst, tsStep2_fst]

/-- C3 (witness): the override evaluated at the backup-timestamp
descriptor with unit "mA", compared against a plain descriptor. -/
theorem normalize_timestamp_override_witness :
    (normalize backupTimestampDescriptor "mA" 5).2.1 = "unixtime" ∧
    (normalize backupTimestampDescriptor "mA" 5).1 = (normalize "x" "mA" 5).1 ∧
    (normalize backupTimestampDescriptor "mA" 5).2.2 = (normalize "x" "mA" 5).2.2 :=
  ⟨normalize_timestamp_override.1 backupTimestampDescriptor "mA" 5 (Or.inl rfl),
   normalize_timestamp_override.2 backupTimestampDescriptor "x" "mA" 5⟩

/-- C9 (counterexample).  The unrecognized unit "Hz" does not pass through
with unitTag equal to the unit when the descriptor is the
backup-timestamp descriptor: the unitTag becomes "unixtime". -/
theorem normalize_passthrough_counterexample :
    normalize backupTimestampDescriptor "Hz" 3 = ("Hz", "unixtime", 3) ∧
    "unixtime" ≠ "Hz" := by
  constructor
  · simp [normalize, unitStep_mA, unitStep_kWh, unitStep_h, tsStep1, tsStep2,
      backupTimestampDescriptor, sendProtocolTimestampDescriptor]
  · decide

/-- C9 (amended theorem).  Unit normalization is total (a total function
on all inputs by construction) and idempotent: a unit not in
{mA, kWh, h} passes through with unitTag equal to the unit provided the
descriptor is not one of the two absolute-timestamp descriptors (those
force unitTag "unixtime"), and re-running normalization on the unit and
value it produced changes nothing. -/
theorem normalize_total_idem_amended :
    (∀ d u v, u ≠ "mA" → u ≠ "kWh" → u ≠ "h" →
      d ≠ backupTimestampDescriptor → d ≠ sendProtocolTimestampDescriptor →
      normalize d u v = (u, u, v)) ∧
    (∀ d u v, normalize d (normalize d u v).1 (normalize d u v).2.2 =
      normalize d u v) := by
  constructor
  · intro d u v h1 h2 h3 h4 h5
    simp [normalize, unitStep_mA, unitStep_kWh, unitStep_h, tsStep1, tsStep2,
      h1, h2, h3, h4, h5]
  · intro d u v
    by_cases hb : d = backupTimestampDescriptor <;>
    by_cases hs : d = sendProtocolTimestampDescriptor <;>
    by_cases h1 : u = "mA" <;> by_cases h2 : u = "kWh" <;> by_cases h3 : u = "h" <;>
      simp_all [normalize, unitStep_mA, unitStep_kWh, unitStep_h, tsStep1, tsStep2,
        backupTimestampDescriptor, sendProtocolTimestampDescriptor]

/-- C9 (witness): pass-through at the unrecognized unit "Hz" with a plain
descriptor, and idempotence evaluated on the "mA" normalization result. -/
theorem normalize_total_idem_amended_witness :
    normalize "x" "Hz" 3 = ("Hz", "Hz", 3) ∧
    normalize "x" (normalize "x" "mA" 5).1 (normalize "x" "mA" 5).2.2 =
      normalize "x" "mA" 5 :=
  ⟨normalize_total_idem_amended.1 "x" "Hz" 3 (by decide) (by decide) (by decide)
      (by decide) (by decide),
   normalize_total_idem_amended.2 "x" "mA" 5⟩

/-! ## Parser batch lemmas -/

lemma parseLines_cons (l : String) (ls : List String) :
    parseLines (l :: ls) = (processLine l).bind fun m =>
      (parseLines ls).bind fun ms => some (m :: ms) := rfl

lemma parseLines_length (ls : List String)
    (h : ∀ l ∈ ls, (processLine l).isSome = true) :
    ∃ ms, parseLines ls = some ms ∧ ms.length = ls.length := by
  induction ls with
  | nil => exact ⟨[], rfl, rfl⟩
  | cons a as ih =>
      obtain ⟨m, hm⟩ := Option.isSome_iff_exists.mp (h a (List.mem_cons_self a as))
      obtain ⟨ms, hms, hlen⟩ := ih fun l hl => h l (List.mem_cons_of_mem a hl)
      exact ⟨m :: ms, by simp [parseLines_cons, hm, hms], by simp [hlen]⟩

lemma parseLines_none (ls : List String) (l : String) (hl : l ∈ ls)
    (h : processLine l = none) : parseLines ls = none := by
  induction ls with
  | nil => cases hl
  | cons a as ih =>
      rw [parseLines_cons]
      rcases List.mem_cons.mp hl with rfl | hmem
      · rw [h]; rfl
      · cases hpa : processLine a
        · rfl
        · simp [ih hmem]

/-- The well-formed device row of end-to-end scenario 1. -/
def scenarioRow : String :=
  "11305;SystemState.Global.Measurement.ACFrequency;F;50.023193;\"AC Netz Frequenz\";1.000000;Hz;2;1;2;1;0.000000;0.000000;0;0;0"

/-- C4 (counterexample).  Empty lines are not skipped by the parser: a body
consisting of a well-formed row followed by a blank line fails to parse
(the empty line has no field at index 3, modelling the `IndexError` the
source raises there), while the same row alone parses to one metric. -/
theorem parse_empty_line_counterexample :
    parse (scenarioRow ++ "\n\n") = none ∧
    parse scenarioRow = some
      [{ id := "11305", descriptor := "SystemState.Global.Measurement.ACFrequency",
         type := "F", value := 50023193 / 1000000,
         description := "AC Netz Frequenz", unit := "Hz", unit_zabbix := "Hz" }] := by
  constructor
  · decide
  · simp [parse, scenarioRow, splitlines, splitlinesAux, parseLines_cons, parseLines,
      processLine, splitOnChar, splitOnCharAux, computeValue, parseDecimal?,
      digitsToNat, normalize, unitStep_mA, unitStep_kWh, unitStep_h, tsStep1, tsStep2,
      backupTimestampDescriptor, sendProtocolTimestampDescriptor, stripChar] <;>
    norm_num

/-- C4 (amended theorem).  The parser splits the body on newline boundaries
and processes every resulting line, empty or not: when every line is
well formed the parse succeeds with exactly one metric per line, but an
empty line anywhere in the split makes the whole parse fail rather than
being skipped. -/
theorem parse_every_line_amended :
    (∀ body, (∀ l ∈ splitlines body, (processLine l).isSome = true) →
      ∃ ms, parse body = some ms ∧ ms.length = (splitlines body).length) ∧
    (∀ body, "" ∈ splitlines body → parse body = none) := by
  constructor
  · intro body h
    exact parseLines_length _ h
  · intro body h
    exact parseLines_none _ _ h rfl

/-- C4 (witness): one well-formed row parses to exactly one metric, and a
body that is a single empty line fails to parse. -/
theorem parse_every_line_amended_witness :
    (∃ ms, parse scenarioRow = some ms ∧
      ms.length = (splitlines scenarioRow).length) ∧
    parse "\n" = none := by
  refine ⟨parse_every_line_amended.1 scenarioRow ?_,
    parse_every_line_amended.2 "\n" (by decide)⟩
  intro l hl
  have hs : splitlines scenarioRow = [scenarioRow] := by decide
  rw [hs] at hl
  have hle : l = scenarioRow := by simpa using hl
  subst hle
  decide

/-- C5 (theorem).  The `next_time` update of app.py line 152 advances the
fire time by a whole number of intervals past the current time: for every
positive delay the new fire time differs from the old one by an integer
multiple of the delay, lies strictly in the future, and is at most one
delay beyond the current time, so overrun intervals are skipped and never
queued as a backlog. -/
theorem next_time_update_skip_ahead (delay next_time now : ℚ) (hd : 0 < delay) :
    (∃ k : ℤ, next_time_update delay next_time now - next_time = k * delay) ∧
    now < next_time_update delay next_time now ∧
    next_time_update delay next_time now ≤ now + delay := by
  refine ⟨⟨⌊(now - next_time) / delay⌋ + 1, ?_⟩, ?_, ?_⟩
  · unfold next_time_update
    push_cast
    ring
  · have h1 : (now - next_time) / delay <
        (⌊(now - next_time) / delay⌋ : ℚ) + 1 := Int.lt_floor_add_one _
    have h2 := (div_lt_iff₀ hd).mp h1
    have h3 : ((⌊(now - next_time) / delay⌋ : ℚ) + 1) * delay =
        (⌊(now - next_time) / delay⌋ : ℚ) * delay + delay := by ring
    unfold next_time_update
    linarith
  · have h1 : (⌊(now - next_time) / delay⌋ : ℚ) ≤ (now - next_time) / delay :=
      Int.floor_le _
    have h2 := mul_le_mul_of_nonneg_right h1 hd.le
    rw [div_mul_cancel₀ _ hd.ne'] at h2
    unfold next_time_update
    linarith

/-- C5 (witness): the spec scenario, interval 10 with an execution overrun
to elapsed time 25 from a fire time of 0. -/
theorem next_time_update_skip_ahead_witness :
    (∃ k : ℤ, next_time_update 10 0 25 - 0 = k * 10) ∧
    (25 : ℚ) < next_time_update 10 0 25 ∧
    next_time_update 10 0 25 ≤ 25 + 10 :=
  next_time_update_skip_ahead 10 0 25 (by norm_num)

/-- C6 (theorem).  The scheduler loop body catches every exception the task
raises: for every fetch outcome, connect outcome and worker state, the
iteration completes normally (never propagates an exception), and whenever
`do_repeat` raises — malformed rows included — the iteration returns with
the error logged and the state and schedule advanced as usual. -/
theorem every_catches_task_errors (delay next_time now : ℚ) (fetch : FetchResult)
    (co : Bool) (s : WorkerState) :
    (∃ r, every_iteration delay next_time now (do_repeat fetch co s) s =
      Except.ok r) ∧
    (∀ e, do_repeat fetch co s = Except.error e →
      every_iteration delay next_time now (do_repeat fetch co s) s =
        Except.ok (s, next_time_update delay next_time now, true)) := by
  constructor
  · cases h : do_repeat fetch co s with
    | ok r =>
        obtain ⟨s2, eff⟩ := r
        exact ⟨(s2, next_time_update delay next_time now, false), rfl⟩
    | error e =>
        exact ⟨(s, next_time_update delay next_time now, true), rfl⟩
  · intro e he
    rw [he]
    rfl

/-- C6 (witness): a 200 response whose single row is malformed makes the
task raise, and the scheduler iteration still returns normally with the
error logged. -/
theorem every_catches_task_errors_witness :
    every_iteration 10 0 25
      (do_repeat (FetchResult.response 200 "x") true ⟨true⟩) ⟨true⟩ =
      Except.ok (⟨true⟩, next_time_update 10 0 25, true) :=
  (every_catches_task_errors 10 0 25 (FetchResult.response 200 "x") true ⟨true⟩).2
    "exception while processing a row" rfl

/-- C7 (counterexample).  A non-200 response makes `do_repeat` raise the
application error of app.py line 221, but the claim that no caller catches
it is false: the scheduler loop (`every`, lines 146–150) catches it, so the
iteration returns normally and the worker does not terminate. -/
theorem nonok_raise_caught_counterexample :
    do_repeat (FetchResult.response 500 "boom") true ⟨true⟩ =
      Except.error ("error fetching data: boom") ∧
    every_iteration 10 0 25
      (do_repeat (FetchResult.response 500 "boom") true ⟨true⟩) ⟨true⟩ =
      Except.ok (⟨true⟩, next_time_update 10 0 25, true) := by
  constructor
  · rfl
  · rfl

/-- C7 (amended theorem).  When the device responds with a non-200 status,
the cycle task raises an application error that propagates out of
`do_repeat`; the scheduler's per-task exception handler catches and logs
it, so the long-running worker process does not terminate. -/
theorem do_repeat_nonok_amended (status : Nat) (body : String) (co : Bool)
    (s : WorkerState) (delay next_time now : ℚ) (h : status ≠ 200) :
    do_repeat (FetchResult.response status body) co s =
      Except.error ("error fetching data: " ++ body) ∧
    every_iteration delay next_time now
      (do_repeat (FetchResult.response status body) co s) s =
      Except.ok (s, next_time_update delay next_time now, true) := by
  have hd : do_repeat (FetchResult.response status body) co s =
      Except.error ("error fetching data: " ++ body) := by
    simp [do_repeat, h]
  exact ⟨hd, by rw [hd]; rfl⟩

/-- C7 (witness): the amended behaviour at status 500. -/
theorem do_repeat_nonok_amended_witness :
    do_repeat (FetchResult.response 500 "bad") false ⟨false⟩ =
      Except.error ("error fetching data: " ++ "bad") ∧
    every_iteration 10 0 25
      (do_repeat (FetchResult.response 500 "bad") false ⟨false⟩) ⟨false⟩ =
      Except.ok (⟨false⟩, next_time_update 10 0 25, true) :=
  do_repeat_nonok_amended 500 "bad" false ⟨false⟩ 10 0 25 (by decide)

/-- C8 (theorem).  In a cycle where fetch and parse succeed but the
connected flag is false at publish time, `do_repeat` returns normally (no
exception), publishes nothing, logs the warning, and performs exactly one
reconnect attempt, leaving the state the connect attempt produced. -/
theorem publish_skip_spec (body : String) (ms : List Metric) (co : Bool)
    (s : WorkerState) (hconn : s.mqtt_connected = false)
    (hp : parse body = some ms) :
    do_repeat (FetchResult.response 200 body) co s =
      Except.ok (mqtt_connect co s,
        { published := none, connectAttempts := 1, warningLogged := true }) := by
  simp [do_repeat, hp, hconn]

/-- C8 (witness): an empty body (zero rows) with the flag down, a
succeeding reconnect. -/
theorem publish_skip_spec_witness :
    do_repeat (FetchResult.response 200 "") true ⟨false⟩ =
      Except.ok (⟨true⟩,
        { published := none, connectAttempts := 1, warningLogged := true }) :=
  publish_skip_spec "" [] true ⟨false⟩ rfl rfl

/-! ## Connection-flag helper lemmas -/

lemma do_repeat_connected_ok (fetch : FetchResult) (co : Bool) (s : WorkerState)
    (h : s.mqtt_connected = true) (s2 : WorkerState) (eff : CycleEffects)
    (hok : do_repeat fetch co s = Except.ok (s2, eff)) :
    s2 = s ∧ eff.connectAttempts = 0 := by
  rcases fetch with _ | ⟨status, body⟩
  · have hdo : do_repeat FetchResult.connError co s = Except.ok
        (s, { published := none, connectAttempts := 0, warningLogged := false }) := rfl
    rw [hdo] at hok
    obtain ⟨rfl, rfl⟩ : s = s2 ∧
        ({ published := none, connectAttempts := 0, warningLogged := false } :
          CycleEffects) = eff := by simpa using hok
    exact ⟨rfl, rfl⟩
  · by_cases hst : status = 200
    · subst hst
      cases hp : parse body with
      | none =>
          have hdo : do_repeat (FetchResult.response 200 body) co s =
              Except.error "exception while processing a row" := by
            simp [do_repeat, hp]
          rw [hdo] at hok
          exact absurd hok (by simp)
      | some ms =>
          have hdo : do_repeat (FetchResult.response 200 body) co s = Except.ok
              (s, { published := some ms, connectAttempts := 0,
                    warningLogged := false }) := by
            simp [do_repeat, hp, h]
          rw [hdo] at hok
          obtain ⟨rfl, rfl⟩ : s = s2 ∧
              ({ published := some ms, connectAttempts := 0,
                 warningLogged := false } : CycleEffects) = eff := by simpa using hok
          exact ⟨rfl, rfl⟩
    · have hdo : do_repeat (FetchResult.response status body) co s =
          Except.error ("error fetching data: " ++ body) := by
        simp [do_repeat, hst]
      rw [hdo] at hok
      exact absurd hok (by simp)

lemma runCycle_connected (fetch : FetchResult) (co : Bool) (s : WorkerState)
    (h : s.mqtt_connected = true) : (runCycle fetch co s).mqtt_connected = true := by
  unfold runCycle
  cases hok : do_repeat fetch co s with
  | ok r =>
      obtain ⟨s2, eff⟩ := r
      have := (do_repeat_connected_ok fetch co s h s2 eff hok).1
      simpa [this] using h
  | error e => exact h

/-- C10 (theorem).  The `mqtt_connected` flag is written only by the
connect sequence, whose outcome it records; a completed cycle changes the
flag only if it made a connect attempt, makes a connect attempt only when
the flag is false, and with the flag true leaves the state untouched with
zero connect attempts; hence once true the flag stays true across any
sequence of cycles. -/
theorem mqtt_connected_flag_invariants :
    (∀ co s, (mqtt_connect co s).mqtt_connected = co) ∧
    (∀ fetch co s s2 eff, do_repeat fetch co s = Except.ok (s2, eff) →
      (s2.mqtt_connected ≠ s.mqtt_connected → eff.connectAttempts = 1) ∧
      (eff.connectAttempts ≠ 0 → s.mqtt_connected = false) ∧
      (s.mqtt_connected = true → s2 = s ∧ eff.connectAttempts = 0)) ∧
    (∀ inputs s, s.mqtt_connected = true →
      (runCycles inputs s).mqtt_connected = true) := by
  refine ⟨fun co s => rfl, ?_, ?_⟩
  · intro fetch co s s2 eff hok
    rcases fetch with _ | ⟨status, body⟩
    · have hdo : do_repeat FetchResult.connError co s = Except.ok
          (s, { published := none, connectAttempts := 0, warningLogged := false }) := rfl
      rw [hdo] at hok
      obtain ⟨rfl, rfl⟩ : s = s2 ∧
          ({ published := none, connectAttempts := 0, warningLogged := false } :
            CycleEffects) = eff := by simpa using hok
      exact ⟨fun hne => absurd rfl hne, fun hne => absurd rfl hne,
        fun _ => ⟨rfl, rfl⟩⟩
    · by_cases hst : status = 200
      · subst hst
        cases hp : parse body with
        | none =>
            have hdo : do_repeat (FetchResult.response 200 body) co s =
                Except.error "exception while processing a row" := by
              simp [do_repeat, hp]
            rw [hdo] at hok
            exact absurd hok (by simp)
        | some ms =>
            by_cases hc : s.mqtt_connected = true
            · have hdo : do_repeat (FetchResult.response 200 body) co s = Except.ok
                  (s, { published := some ms, connectAttempts := 0,
                        warningLogged := false }) := by
                simp [do_repeat, hp, hc]
              rw [hdo] at hok
              obtain ⟨rfl, rfl⟩ : s = s2 ∧
                  ({ published := some ms, connectAttempts := 0,
                     warningLogged := false } : CycleEffects) = eff := by
                simpa using hok
              exact ⟨fun hne => absurd rfl hne, fun hne => absurd rfl hne,
                fun _ => ⟨rfl, rfl⟩⟩
            · rw [Bool.not_eq_true] at hc
              have hdo : do_repeat (FetchResult.response 200 body) co s = Except.ok
                  (mqtt_connect co s,
                    { published := none
                      connectAttempts := 1
                      warningLogged := true }) := by
                simp [do_repeat, hp, hc]
              rw [hdo] at hok
              obtain ⟨rfl, rfl⟩ : mqtt_connect co s = s2 ∧
                  ({ published := none
                     connectAttempts := 1
                     warningLogged := true } : CycleEffects) = eff := by
                simpa using hok
              refine ⟨fun _ => rfl, fun _ => hc, fun htrue => ?_⟩
              rw [htrue] at hc
              cases hc
      · have hdo : do_repeat (FetchResult.response status body) co s =
            Except.error ("error fetching data: " ++ body) := by
          simp [do_repeat, hst]
        rw [hdo] at hok
        exact absurd hok (by simp)
  · intro inputs
    induction inputs with
    | nil => intro s h; exact h
    | cons p rest ih =>
        intro s h
        obtain ⟨f, c⟩ := p
        exact ih _ (runCycle_connected f c s h)

/-- C10 (witness): the flag records a failed connect outcome, a
connection-error cycle from a connected state changes nothing, and the
flag stays true across a sequence of cycles that includes a device
failure. -/
theorem mqtt_connected_flag_invariants_witness :
    (mqtt_connect false ⟨true⟩).mqtt_connected = false ∧
    ((⟨true⟩ : WorkerState) = ⟨true⟩ ∧
      CycleEffects.connectAttempts
        { published := none, connectAttempts := 0, warningLogged := false } = 0) ∧
    (runCycles [(FetchResult.connError, true), (FetchResult.response 404 "x", false)]
      ⟨true⟩).mqtt_connected = true := by
  refine ⟨mqtt_connected_flag_invariants.1 false ⟨true⟩, ?_,
    mqtt_connected_flag_invariants.2.2 _ ⟨true⟩ rfl⟩
  exact (mqtt_connected_flag_invariants.2.1 FetchResult.connError true ⟨true⟩ ⟨true⟩
    { published := none, connectAttempts := 0, warningLogged := false } rfl).2.2 rfl

end BenningSolar
